import Mathlib

/-!
Verification of the network `Behaviour` combinator (src/node/network/src/behaviour.rs).

The combinator owns the sub-protocol instances, translates their native events into a
FIFO queue of `BehaviourOut` output events, and forwards side effects to collaborator
sub-protocols.  We embed the combinator's own state as the pair of its output queue and
its local role (the only `#[behaviour(ignore)]` fields), and record each call into a
collaborator sub-protocol as an explicit element of a call trace, since the collaborators
themselves are external to this component.
-/

namespace GMPC

/-- Opaque identifier of a remote node (libp2p `PeerId`). -/
abbrev PeerId := Nat

/-- Opaque network address (libp2p `Multiaddr`). -/
abbrev Multiaddr := Nat

/-- Identifier of an application-level notification protocol (`ConsensusEngineId`). -/
abbrev ConsensusEngineId := Nat

/-- Identifier of a logical overlay protocol (`ProtocolId`). -/
abbrev ProtocolId := Nat

/-- Key of a DHT record (`record::Key`). -/
abbrev RecordKey := Nat

/-- Opaque block hash. -/
abbrev BlockHash := Nat

/-- Opaque block number. -/
abbrev BlockNumber := Nat

/-- Opaque byte payload (`Vec<u8>`). -/
abbrev Payload := List Nat

/-- Opaque justification bytes. -/
abbrev Justification := List Nat

/-- Opaque block origin tag. -/
abbrev BlockOrigin := Nat

/-- Opaque origin tag used by justification and finality-proof imports. -/
abbrev Origin := Nat

/-- Opaque incoming-block descriptor. -/
abbrev IncomingBlock := Nat

/-- Modelled from the spec: an entry of the configured sentry-node or validator lists
(`config::Role`'s address-with-peer-id entries, whose `peer_id` field the classifier
compares against the remote peer). -/
structure MultiaddrWithPeerId where
  multiaddr : Multiaddr
  peer_id : PeerId
deriving DecidableEq, Repr

/-- Modelled from the spec: the local node's role, process-wide and immutable after
construction: ordinary, authority with a set of sentry peers, or sentry with a set of
validator peers. -/
inductive Role where
  | ordinary : Role
  | authority (sentry_nodes : List MultiaddrWithPeerId) : Role
  | sentry (validators : List MultiaddrWithPeerId) : Role
deriving DecidableEq, Repr

/-- Modelled from the spec: the capability flags a remote peer reports for itself — an
authority capability and a full-node capability. -/
structure Roles where
  authority : Bool
  full : Bool
deriving DecidableEq, Repr

/-- Whether the reported flags include the authority capability. -/
def Roles.is_authority (r : Roles) : Bool := r.authority

/-- Whether the reported flags include the full-node capability. -/
def Roles.is_full (r : Roles) : Bool := r.full

/-- How the local node perceives a remote peer (`ObservedRole`). -/
inductive ObservedRole where
  | Full : ObservedRole
  | Light : ObservedRole
  | Authority : ObservedRole
  | OurSentry : ObservedRole
  | OurGuardedAuthority : ObservedRole
deriving DecidableEq, Repr

/-- Translation of `reported_roles_to_observed_role` (behaviour.rs:160-174): the guarded
match on the local role under the authority-capability test, then the full/light split. -/
def reported_roles_to_observed_role (local_role : Role) (remote : PeerId) (roles : Roles) :
    ObservedRole :=
  if roles.is_authority then
    match local_role with
    | Role.authority sentry_nodes =>
        if sentry_nodes.any (fun s => s.peer_id == remote) then ObservedRole.OurSentry
        else ObservedRole.Authority
    | Role.sentry validators =>
        if validators.any (fun s => s.peer_id == remote) then ObservedRole.OurGuardedAuthority
        else ObservedRole.Authority
    | Role.ordinary => ObservedRole.Authority
  else if roles.is_full then
    ObservedRole.Full
  else
    ObservedRole.Light

/-- Spec reading of the Role Classifier (spec section 4.3), written from the spec's words
for comparison with the source translation: membership of the remote id in the sentry or
validator peer set. -/
def observed_role_spec (local_role : Role) (remote : PeerId) (roles : Roles) : ObservedRole :=
  if roles.is_authority then
    match local_role with
    | Role.authority sentry_nodes =>
        if remote ∈ sentry_nodes.map MultiaddrWithPeerId.peer_id then ObservedRole.OurSentry
        else ObservedRole.Authority
    | Role.sentry validators =>
        if remote ∈ validators.map MultiaddrWithPeerId.peer_id then ObservedRole.OurGuardedAuthority
        else ObservedRole.Authority
    | Role.ordinary => ObservedRole.Authority
  else if roles.is_full then
    ObservedRole.Full
  else
    ObservedRole.Light

/-- Modelled from the spec: DHT result payloads wrapped into application events
(`DhtEvent`). -/
inductive DhtEvent where
  | ValueFound (results : List (RecordKey × Payload)) : DhtEvent
  | ValueNotFound (key : RecordKey) : DhtEvent
  | ValuePut (key : RecordKey) : DhtEvent
  | ValuePutFailed (key : RecordKey) : DhtEvent
deriving DecidableEq, Repr

/-- Modelled from the spec: application-level events (`Event`). -/
inductive Event where
  | NotificationStreamOpened (remote : PeerId) (engine_id : ConsensusEngineId)
      (role : ObservedRole) : Event
  | NotificationStreamClosed (remote : PeerId) (engine_id : ConsensusEngineId) : Event
  | NotificationsReceived (remote : PeerId)
      (messages : List (ConsensusEngineId × Payload)) : Event
  | Dht (event : DhtEvent) : Event
deriving DecidableEq, Repr

/-- Translation of `BehaviourOut` (behaviour.rs:43-50): the unified output event type. -/
inductive BehaviourOut where
  | BlockImport (origin : BlockOrigin) (blocks : List IncomingBlock) : BehaviourOut
  | JustificationImport (origin : Origin) (hash : BlockHash) (number : BlockNumber)
      (justification : Justification) : BehaviourOut
  | FinalityProofImport (origin : Origin) (hash : BlockHash) (number : BlockNumber)
      (proof : Payload) : BehaviourOut
  | RandomKademliaStarted (protocol : ProtocolId) : BehaviourOut
  | Event (event : Event) : BehaviourOut
deriving DecidableEq, Repr

/-- Translation of the `Behaviour` struct's own state (behaviour.rs:20-40): the
`#[behaviour(ignore)]` fields `events` (the output queue) and `role`.  The sub-protocol
instances are external collaborators, modelled through the call trace below. -/
structure Behaviour where
  events : List BehaviourOut
  role : Role
deriving DecidableEq, Repr

/-- Calls the combinator makes into its collaborator sub-protocols, recorded as an
explicit trace since the collaborators are outside this component. -/
inductive CollabCall where
  | discovery_add_self_reported_address (peer_id : PeerId) (addr : Multiaddr) : CollabCall
  | substrate_add_discovered_nodes (peers : List PeerId) : CollabCall
  | light_client_update_best_block (peer_id : PeerId) (number : BlockNumber) : CollabCall
  | discovery_get_value (key : RecordKey) : CollabCall
  | discovery_put_value (key : RecordKey) (value : Payload) : CollabCall
deriving DecidableEq, Repr

/-- Translation of `Behaviour::new` (behaviour.rs:54-72): the output queue starts as
`Vec::new()` and the role is stored; the collaborator instances (substrate protocol,
block requests, light client handler, discovery config, user agent, public key) are
opaque here. -/
def Behaviour.new (substrate : Nat) (role : Role) (user_agent : Nat)
    (local_public_key : Nat) (block_requests : Nat) (light_client_handler : Nat)
    (disco_config : Nat) : Behaviour :=
  { events := [], role := role }

/-- Translation of `Behaviour::register_notifications_protocol` (behaviour.rs:117-132):
the list of already-connected (peer, flags) pairs returned by the sync sub-protocol is
taken as an argument; the loop classifies each peer and pushes one synthetic
stream-opened event. -/
def Behaviour.register_notifications_protocol (self : Behaviour)
    (engine_id : ConsensusEngineId) (list : List (PeerId × Roles)) : Behaviour :=
  list.foldl (fun b pr =>
    let role := reported_roles_to_observed_role b.role pr.1 pr.2
    { b with events := b.events ++
        [BehaviourOut.Event (Event.NotificationStreamOpened pr.1 engine_id role)] })
    self

/-- Translation of `Behaviour::get_value` (behaviour.rs:145-147): forward to the
discovery collaborator, enqueue nothing. -/
def Behaviour.get_value (self : Behaviour) (key : RecordKey) :
    Behaviour × List CollabCall :=
  (self, [CollabCall.discovery_get_value key])

/-- Translation of `Behaviour::put_value` (behaviour.rs:150-152): forward to the
discovery collaborator, enqueue nothing. -/
def Behaviour.put_value (self : Behaviour) (key : RecordKey) (value : Payload) :
    Behaviour × List CollabCall :=
  (self, [CollabCall.discovery_put_value key value])

/-- Translation of `void::Void`: the uninhabited event type of a sub-protocol that
structurally emits nothing. -/
inductive VoidEvent : Type

/-- Translation of `inject_event` for `void::Void` (behaviour.rs:176-181):
`void::unreachable(event)` — there is no case to handle. -/
def inject_event_void (self : Behaviour) (event : VoidEvent) :
    Behaviour × List CollabCall :=
  nomatch event

/-- Modelled from the spec: the events emitted by the sync sub-protocol
(`CustomMessageOutcome`). -/
inductive CustomMessageOutcome where
  | BlockImport (origin : BlockOrigin) (blocks : List IncomingBlock) : CustomMessageOutcome
  | JustificationImport (origin : Origin) (hash : BlockHash) (number : BlockNumber)
      (justification : Justification) : CustomMessageOutcome
  | FinalityProofImport (origin : Origin) (hash : BlockHash) (number : BlockNumber)
      (proof : Payload) : CustomMessageOutcome
  | NotificationStreamOpened (remote : PeerId) (protocols : List ConsensusEngineId)
      (roles : Roles) : CustomMessageOutcome
  | NotificationStreamClosed (remote : PeerId)
      (protocols : List ConsensusEngineId) : CustomMessageOutcome
  | NotificationsReceived (remote : PeerId)
      (messages : List (ConsensusEngineId × Payload)) : CustomMessageOutcome
  | PeerNewBest (peer_id : PeerId) (number : BlockNumber) : CustomMessageOutcome
  | None : CustomMessageOutcome
deriving DecidableEq, Repr

/-- Translation of `inject_event` for `CustomMessageOutcome` (behaviour.rs:183-220). -/
def inject_event_custom_message (self : Behaviour) (event : CustomMessageOutcome) :
    Behaviour × List CollabCall :=
  match event with
  | CustomMessageOutcome.BlockImport origin blocks =>
      ({ self with events := self.events ++ [BehaviourOut.BlockImport origin blocks] }, [])
  | CustomMessageOutcome.JustificationImport origin hash nb justification =>
      ({ self with events := self.events ++
          [BehaviourOut.JustificationImport origin hash nb justification] }, [])
  | CustomMessageOutcome.FinalityProofImport origin hash nb proof =>
      ({ self with events := self.events ++
          [BehaviourOut.FinalityProofImport origin hash nb proof] }, [])
  | CustomMessageOutcome.NotificationStreamOpened remote protocols roles =>
      let role := reported_roles_to_observed_role self.role remote roles
      ({ self with events := protocols.foldl (fun evs engine_id =>
          evs ++ [BehaviourOut.Event
            (Event.NotificationStreamOpened remote engine_id role)]) self.events }, [])
  | CustomMessageOutcome.NotificationStreamClosed remote protocols =>
      ({ self with events := protocols.foldl (fun evs engine_id =>
          evs ++ [BehaviourOut.Event
            (Event.NotificationStreamClosed remote engine_id)]) self.events }, [])
  | CustomMessageOutcome.NotificationsReceived remote messages =>
      ({ self with events := self.events ++
          [BehaviourOut.Event (Event.NotificationsReceived remote messages)] }, [])
  | CustomMessageOutcome.PeerNewBest peer_id number =>
      (self, [CollabCall.light_client_update_best_block peer_id number])
  | CustomMessageOutcome.None => (self, [])

/-- Modelled from the spec: the identify info carried by the liveness sub-protocol's
`Identified` event — listen addresses plus version strings (used only for logging). -/
structure NodeInfo where
  listen_addrs : List Multiaddr
  protocol_version : Nat
  agent_version : Nat
deriving DecidableEq, Repr

/-- Modelled from the spec: the single event of the liveness sub-protocol
(`DebugInfoEvent`). -/
inductive DebugInfoEvent where
  | Identified (peer_id : PeerId) (info : NodeInfo) : DebugInfoEvent
deriving DecidableEq, Repr

/-- Translation of `inject_event` for `DebugInfoEvent` (behaviour.rs:222-238): truncate
the listen addresses to 30 when more were reported (the `debug!` log has no effect
modelled here), forward each surviving address to discovery, then register the peer as
newly discovered with the sync sub-protocol. -/
def inject_event_debug_info (self : Behaviour) (event : DebugInfoEvent) :
    Behaviour × List CollabCall :=
  match event with
  | DebugInfoEvent.Identified peer_id info =>
      let info := if info.listen_addrs.length > 30
        then { info with listen_addrs := info.listen_addrs.take 30 }
        else info
      (self,
        info.listen_addrs.foldl (fun calls addr =>
          calls ++ [CollabCall.discovery_add_self_reported_address peer_id addr]) []
        ++ [CollabCall.substrate_add_discovered_nodes [peer_id]])

/-- Modelled from the spec: the events emitted by the discovery sub-protocol
(`DiscoveryOut`). -/
inductive DiscoveryOut where
  | UnroutablePeer (peer_id : PeerId) : DiscoveryOut
  | Discovered (peer_id : PeerId) : DiscoveryOut
  | ValueFound (results : List (RecordKey × Payload)) : DiscoveryOut
  | ValueNotFound (key : RecordKey) : DiscoveryOut
  | ValuePut (key : RecordKey) : DiscoveryOut
  | ValuePutFailed (key : RecordKey) : DiscoveryOut
  | RandomKademliaStarted (protocols : List ProtocolId) : DiscoveryOut
deriving DecidableEq, Repr

/-- Translation of `inject_event` for `DiscoveryOut` (behaviour.rs:240-272). -/
def inject_event_discovery (self : Behaviour) (out : DiscoveryOut) :
    Behaviour × List CollabCall :=
  match out with
  | DiscoveryOut.UnroutablePeer _peer_id => (self, [])
  | DiscoveryOut.Discovered peer_id =>
      (self, [CollabCall.substrate_add_discovered_nodes [peer_id]])
  | DiscoveryOut.ValueFound results =>
      ({ self with events := self.events ++
          [BehaviourOut.Event (Event.Dht (DhtEvent.ValueFound results))] }, [])
  | DiscoveryOut.ValueNotFound key =>
      ({ self with events := self.events ++
          [BehaviourOut.Event (Event.Dht (DhtEvent.ValueNotFound key))] }, [])
  | DiscoveryOut.ValuePut key =>
      ({ self with events := self.events ++
          [BehaviourOut.Event (Event.Dht (DhtEvent.ValuePut key))] }, [])
  | DiscoveryOut.ValuePutFailed key =>
      ({ self with events := self.events ++
          [BehaviourOut.Event (Event.Dht (DhtEvent.ValuePutFailed key))] }, [])
  | DiscoveryOut.RandomKademliaStarted protocols =>
      ({ self with events := protocols.foldl (fun evs protocol =>
          evs ++ [BehaviourOut.RandomKademliaStarted protocol]) self.events }, [])

/-- Result of one poll: either the next output event or the no-event-ready signal
(`Poll::Ready(GenerateEvent _)` versus `Poll::Pending`). -/
inductive PollResult where
  | Ready (event : BehaviourOut) : PollResult
  | Pending : PollResult
deriving DecidableEq, Repr

/-- Translation of `Behaviour::poll` (behaviour.rs:274-282): when `events` is non-empty
return `events.remove(0)` (the head) and the remaining queue, otherwise `Poll::Pending`
with the state unchanged. -/
def Behaviour.poll (self : Behaviour) : PollResult × Behaviour :=
  match self.events with
  | [] => (PollResult.Pending, self)
  | ev :: rest => (PollResult.Ready ev, { self with events := rest })

/-- A left fold that pushes one image per element onto an accumulator list is the same as
appending the mapped list: the shape of every `for … { self.events.push(…) }` loop in the
source. -/
theorem foldl_push_eq_append_map {α β : Type} (f : α → β) (l : List α) (init : List β) :
    l.foldl (fun acc x => acc ++ [f x]) init = init ++ l.map f := by
  induction l generalizing init with
  | nil => simp
  | cons x xs ih => simp [ih]

/-- C1: the Role Classifier `reported_roles_to_observed_role` is a pure total function on
local role, remote peer id and reported capability flags, and it agrees everywhere with
the spec's case analysis: authority capability first (OurSentry when the local node is an
authority and the remote is in its sentry set, OurGuardedAuthority when the local node is
a sentry and the remote is in its validator set, Authority otherwise), then Full on the
full-node capability, and Light in all remaining cases. -/
theorem reported_roles_to_observed_role_correct (local_role : Role) (remote : PeerId)
    (roles : Roles) :
    reported_roles_to_observed_role local_role remote roles =
      observed_role_spec local_role remote roles := by
  obtain ⟨auth, full⟩ := roles
  cases auth <;> cases full <;> cases local_role <;>
    simp [reported_roles_to_observed_role, observed_role_spec, Roles.is_authority,
      Roles.is_full, List.any_eq_true, List.mem_map, beq_iff_eq]

/-- C2: one call to `Behaviour.poll` removes and returns exactly the oldest queued event
when the queue is non-empty (so a queue holding A, B, C in order is drained A, then B,
then C by successive polls), and when the queue is empty it returns the no-event-ready
signal with the state unchanged, so a repeated poll on an empty queue again returns the
no-event signal with no side effects. -/
theorem poll_fifo (b : Behaviour) :
    (∀ ev rest, b.events = ev :: rest →
        Behaviour.poll b = (PollResult.Ready ev, { b with events := rest })) ∧
    (∀ A B C, b.events = [A, B, C] →
        (Behaviour.poll b).1 = PollResult.Ready A ∧
        (Behaviour.poll (Behaviour.poll b).2).1 = PollResult.Ready B ∧
        (Behaviour.poll (Behaviour.poll (Behaviour.poll b).2).2).1 = PollResult.Ready C) ∧
    (b.events = [] →
        Behaviour.poll b = (PollResult.Pending, b) ∧
        Behaviour.poll (Behaviour.poll b).2 = (PollResult.Pending, b)) := by
  obtain ⟨events, role⟩ := b
  refine ⟨?_, ?_, ?_⟩
  · rintro ev rest rfl
    rfl
  · rintro A B C rfl
    exact ⟨rfl, rfl, rfl⟩
  · rintro rfl
    exact ⟨rfl, rfl⟩

/-- Witness for C2 at a concrete queue of three events. -/
theorem poll_fifo_witness :
    (Behaviour.poll
        { events := [BehaviourOut.RandomKademliaStarted 4,
                     BehaviourOut.RandomKademliaStarted 5,
                     BehaviourOut.RandomKademliaStarted 6],
          role := Role.ordinary }).1 = PollResult.Ready (BehaviourOut.RandomKademliaStarted 4) :=
  ((poll_fifo _).2.1 _ _ _ rfl).1

/-- C3: a sync-sub-protocol `NotificationStreamOpened` event for peer `remote` with a
protocol-tag list and capability flags makes no collaborator call and appends to the
output queue exactly one `NotificationStreamOpened` output event per listed protocol tag,
in the input list's order, all carrying `remote` and the one role computed by the Role
Classifier; in particular the queue grows by exactly the number of listed tags. -/
theorem notification_stream_opened_fanout (b : Behaviour) (remote : PeerId)
    (protocols : List ConsensusEngineId) (roles : Roles) :
    inject_event_custom_message b
        (CustomMessageOutcome.NotificationStreamOpened remote protocols roles) =
      ({ b with events := b.events ++ protocols.map (fun engine_id =>
          BehaviourOut.Event (Event.NotificationStreamOpened remote engine_id
            (reported_roles_to_observed_role b.role remote roles))) }, []) ∧
    (inject_event_custom_message b
        (CustomMessageOutcome.NotificationStreamOpened remote protocols roles)).1.events.length
      = b.events.length + protocols.length := by
  have h : inject_event_custom_message b
      (CustomMessageOutcome.NotificationStreamOpened remote protocols roles) =
    ({ b with events := b.events ++ protocols.map (fun engine_id =>
        BehaviourOut.Event (Event.NotificationStreamOpened remote engine_id
          (reported_roles_to_observed_role b.role remote roles))) }, []) := by
    simp [inject_event_custom_message, foldl_push_eq_append_map]
  exact ⟨h, by rw [h]; simp⟩

/-- C5: registering a notifications protocol when the sync sub-protocol reports a list of
already-connected (peer, flags) pairs appends to the output queue exactly one synthetic
`NotificationStreamOpened` event per listed pair, in order, each carrying that peer, the
registered engine id, and the role classified from the local role and that peer's flags;
the local role is unchanged and the queue grows by exactly the list's length. -/
theorem register_notifications_protocol_synthesizes (b : Behaviour)
    (engine_id : ConsensusEngineId) (list : List (PeerId × Roles)) :
    Behaviour.register_notifications_protocol b engine_id list =
      { b with events := b.events ++ list.map (fun pr =>
          BehaviourOut.Event (Event.NotificationStreamOpened pr.1 engine_id
            (reported_roles_to_observed_role b.role pr.1 pr.2))) } ∧
    (Behaviour.register_notifications_protocol b engine_id list).events.length =
      b.events.length + list.length := by
  have h : ∀ (l : List (PeerId × Roles)) (b' : Behaviour),
      Behaviour.register_notifications_protocol b' engine_id l =
        { b' with events := b'.events ++ l.map (fun pr =>
            BehaviourOut.Event (Event.NotificationStreamOpened pr.1 engine_id
              (reported_roles_to_observed_role b'.role pr.1 pr.2))) } := by
    intro l
    induction l with
    | nil => intro b'; simp [Behaviour.register_notifications_protocol]
    | cons pr rest ih =>
        intro b'
        simp only [Behaviour.register_notifications_protocol, List.foldl_cons] at ih ⊢
        rw [ih]
        simp
  exact ⟨h list b, by rw [h list b]; simp⟩

/-- C4: an `Identified` event leaves the output queue untouched and produces exactly the
calls forwarding the first (at most) 30 reported listen addresses to discovery, in order,
followed by one registration of the peer as newly discovered with the sync sub-protocol;
consequently at most 30 addresses are forwarded and the peer is registered exactly
once. -/
theorem identified_truncates_and_forwards (b : Behaviour) (peer_id : PeerId)
    (info : NodeInfo) :
    inject_event_debug_info b (DebugInfoEvent.Identified peer_id info) =
      (b, (info.listen_addrs.take 30).map
            (fun addr => CollabCall.discovery_add_self_reported_address peer_id addr)
          ++ [CollabCall.substrate_add_discovered_nodes [peer_id]]) ∧
    (inject_event_debug_info b (DebugInfoEvent.Identified peer_id info)).2.countP
        (fun c => match c with
          | CollabCall.discovery_add_self_reported_address _ _ => true
          | _ => false) ≤ 30 ∧
    (inject_event_debug_info b (DebugInfoEvent.Identified peer_id info)).2.countP
        (fun c => match c with
          | CollabCall.substrate_add_discovered_nodes _ => true
          | _ => false) = 1 := by
  have h : inject_event_debug_info b (DebugInfoEvent.Identified peer_id info) =
      (b, (info.listen_addrs.take 30).map
            (fun addr => CollabCall.discovery_add_self_reported_address peer_id addr)
          ++ [CollabCall.substrate_add_discovered_nodes [peer_id]]) := by
    by_cases hlen : info.listen_addrs.length > 30
    · simp [inject_event_debug_info, hlen, foldl_push_eq_append_map]
    · push_neg at hlen
      simp [inject_event_debug_info, Nat.not_lt.mpr hlen, foldl_push_eq_append_map,
        List.take_of_length_le hlen]
  refine ⟨h, ?_, ?_⟩
  · rw [h]
    simp only [List.countP_append, List.countP_map]
    have hle : (info.listen_addrs.take 30).length ≤ 30 := by
      simp [List.length_take]
    calc ((info.listen_addrs.take 30).countP _) + _
        ≤ (info.listen_addrs.take 30).length + 0 := by
          refine Nat.add_le_add (List.countP_le_length _) ?_
          simp [List.countP_cons]
      _ ≤ 30 := by omega
  · rw [h]
    simp only [List.countP_append, List.countP_map]
    have hzero : (info.listen_addrs.take 30).countP
        ((fun c => match c with
          | CollabCall.substrate_add_discovered_nodes _ => true
          | _ => false) ∘
         (fun addr => CollabCall.discovery_add_self_reported_address peer_id addr)) = 0 := by
      simp [List.countP_eq_zero, Function.comp]
    rw [hzero]
    simp [List.countP_cons]

/-- C6: DHT results surface only as output events: `get_value` and `put_value` leave the
behaviour unchanged and only forward one call to the discovery collaborator (so nothing
is enqueued before a discovery notification arrives), while each of the four discovery
result events `ValueFound`, `ValueNotFound`, `ValuePut` and `ValuePutFailed` makes no
collaborator call and appends exactly one corresponding DHT output event carrying the
result's payload. -/
theorem dht_results_as_events (b : Behaviour) (key : RecordKey) (value : Payload)
    (results : List (RecordKey × Payload)) :
    Behaviour.get_value b key = (b, [CollabCall.discovery_get_value key]) ∧
    Behaviour.put_value b key value = (b, [CollabCall.discovery_put_value key value]) ∧
    inject_event_discovery b (DiscoveryOut.ValueFound results) =
      ({ b with events := b.events ++
          [BehaviourOut.Event (Event.Dht (DhtEvent.ValueFound results))] }, []) ∧
    inject_event_discovery b (DiscoveryOut.ValueNotFound key) =
      ({ b with events := b.events ++
          [BehaviourOut.Event (Event.Dht (DhtEvent.ValueNotFound key))] }, []) ∧
    inject_event_discovery b (DiscoveryOut.ValuePut key) =
      ({ b with events := b.events ++
          [BehaviourOut.Event (Event.Dht (DhtEvent.ValuePut key))] }, []) ∧
    inject_event_discovery b (DiscoveryOut.ValuePutFailed key) =
      ({ b with events := b.events ++
          [BehaviourOut.Event (Event.Dht (DhtEvent.ValuePutFailed key))] }, []) :=
  ⟨rfl, rfl, rfl, rfl, rfl, rfl⟩

/-- C7: a `PeerNewBest(peer, number)` event from the sync sub-protocol never enqueues an
output event and changes no combinator state; its only effect is a single
`update_best_block(peer, number)` call on the light-client collaborator. -/
theorem peer_new_best_side_effect_only (b : Behaviour) (peer_id : PeerId)
    (number : BlockNumber) :
    inject_event_custom_message b (CustomMessageOutcome.PeerNewBest peer_id number) =
      (b, [CollabCall.light_client_update_best_block peer_id number]) :=
  rfl

/-- C8: an `UnroutablePeer` event from the discovery sub-protocol is a complete no-op:
the behaviour state is unchanged and no call is made into any sub-protocol. -/
theorem unroutable_peer_noop (b : Behaviour) (peer_id : PeerId) :
    inject_event_discovery b (DiscoveryOut.UnroutablePeer peer_id) = (b, []) :=
  rfl

/-- C9: the void event type is uninhabited, so the handler `inject_event_void` is
statically unreachable: no value of `VoidEvent` exists to invoke it with. -/
theorem void_event_unreachable :
    (∀ event : VoidEvent, False) ∧
    (∀ (b : Behaviour) (event : VoidEvent), inject_event_void b event = (b, [])) :=
  ⟨(fun event => nomatch event), (fun _ event => nomatch event)⟩

/-- C10: a freshly constructed behaviour has an empty output queue: for every set of
construction arguments, the first poll after `Behaviour.new`, before any event injection
or protocol registration, returns the no-event-ready signal with the state unchanged. -/
theorem new_behaviour_first_poll_pending (substrate : Nat) (role : Role)
    (user_agent : Nat) (local_public_key : Nat) (block_requests : Nat)
    (light_client_handler : Nat) (disco_config : Nat) :
    Behaviour.poll (Behaviour.new substrate role user_agent local_public_key
        block_requests light_client_handler disco_config) =
      (PollResult.Pending,
       Behaviour.new substrate role user_agent local_public_key block_requests
         light_client_handler disco_config) :=
  rfl

end GMPC
